import Mathlib

/-!
Verification of the two tutorial scripts of this repository,
`intermediate_source/torch_export_tutorial.py` and
`recipes_source/recipes/swap_tensors.py`.

The development has two layers.

Layer 1 embeds the few functions whose bodies contain computation written
in this repository: the custom operator `custom_op` and its fake
implementation `custom_op_meta` (torch_export_tutorial.py lines 550-561),
the wrapper subclass `MyQuantizedLinearWeight` with its dispatch handler
(swap_tensors.py lines 79-108), and the `__torch_function__` handler
`custom_torch_function` (swap_tensors.py lines 184-196).  Tensors are
modelled as a shape together with integer payload data; framework
operator kernels the handlers merely invoke are abstracted as function
parameters, since their computation lives outside this repository.

Layer 2 is a syntactic model of the scripts themselves: an enumeration of
every top-level statement with its line number and action kind, of every
function or class body with flags for repository-written control flow, of
every raise statement, and of every try/except block.  Each table entry is
a direct transcription of the cited source line.  Global framework
settings touched by the scripts (the swap_module_params_on_conversion
flag and the logging verbosity) are modelled as a state folded over the
statement list.
-/

/-- A tensor: a shape and a flat integer payload.  Floating point payloads
are modelled by integers since the embedded functions never do payload
arithmetic beyond `relu`. -/
structure Tensor where
  shape : List Nat
  data : List Int
deriving DecidableEq, Repr

/-- Model of `torch.relu`: clamp every payload entry at zero from below. -/
def relu (t : Tensor) : Tensor :=
  ⟨t.shape, t.data.map (fun v => max v 0)⟩

/-- Model of `torch.empty_like`: a tensor of the same shape; the
unspecified fresh payload is modelled as zeros. -/
def empty_like (t : Tensor) : Tensor :=
  ⟨t.shape, t.data.map (fun _ => 0)⟩

/-- Eager implementation of the registered custom operator
(torch_export_tutorial.py lines 550-553):

    def custom_op(input: torch.Tensor) -> torch.Tensor:
        print("custom_op called!")
        return torch.relu(x)

The module level global `x` (bound at line 440) is threaded as the
explicit first argument `globalX`; the body returns `relu` of the global,
never touching the parameter `input`. -/
def custom_op (globalX : Tensor) (input : Tensor) : Tensor :=
  relu globalX

/-- Registered fake (meta) implementation
(torch_export_tutorial.py lines 559-561):

    def custom_op_meta(x):
        return torch.empty_like(x)

Here `x` is the functions own parameter, not the global. -/
def custom_op_meta (x : Tensor) : Tensor :=
  empty_like x

/-- The quantization scale; a float in the source (0.5 at every call
site), modelled as a rational. -/
abbrev Scale := ℚ

/-- The wrapper tensor subclass defined in swap_tensors.py lines 79-96:
`__init__` stores the payload `elem` and the `scale`. -/
structure MyQuantizedLinearWeight where
  elem : Tensor
  scale : Scale
deriving DecidableEq, Repr

/-- ATen operators as seen by the dispatch handler: the two operators the
handler supports by name, and everything else. -/
inductive AtenOp
  | detach
  | toCopy
  | other (name : String)
deriving DecidableEq, BEq, Repr

/-- The error raised by the dispatch handler
(swap_tensors.py line 108): `NotImplementedError` naming the operator. -/
inductive DispatchError
  | notImplemented (func : AtenOp)
deriving DecidableEq, Repr

/-- swap_tensors.py line 105: `OP_TABLE = dict()` - the table of extra
operator implementations is empty. -/
def OP_TABLE : List (AtenOp × (MyQuantizedLinearWeight → MyQuantizedLinearWeight)) :=
  []

/-- The dispatch handler `MyQuantizedLinearWeight.__torch_dispatch__`
(swap_tensors.py lines 98-108):

    if func in (aten.detach.default, aten._to_copy.default):
        new_elem = func(args[0].elem, ...)
        return cls(new_elem, args[0].scale)
    OP_TABLE = dict()
    if func in OP_TABLE:
        return OP_TABLE[func](func, args, kwargs)
    raise NotImplementedError(...)

`applyAten` abstracts the framework kernel `func(args[0].elem, ...)`; the
handler itself only rewraps its result with the preserved scale, or
raises. -/
def torch_dispatch (applyAten : AtenOp → Tensor → Tensor)
    (func : AtenOp) (w : MyQuantizedLinearWeight) :
    Except DispatchError MyQuantizedLinearWeight :=
  if func = AtenOp.detach ∨ func = AtenOp.toCopy then
    Except.ok ⟨applyAten func w.elem, w.scale⟩
  else
    match OP_TABLE.lookup func with
    | some f => Except.ok (f w)
    | none => Except.error (DispatchError.notImplemented func)

/-- Torch functions as seen by the `__torch_function__` handler: the
`torch.Tensor.module_load` hook it intercepts, and everything else. -/
inductive TorchFunc
  | moduleLoad
  | other (name : String)
deriving DecidableEq, BEq, Repr

/-- What the handler `custom_torch_function` does with a call: either it
constructs a wrapper itself (repository-defined transformation), or it
re-invokes `func` on the original arguments with the subclass handler
disabled (delegation to the framework). -/
inductive TFOutcome
  | constructWrapper (w : MyQuantizedLinearWeight)
  | delegateToFramework (func : TorchFunc)
      (dest : MyQuantizedLinearWeight) (src : Tensor)
deriving DecidableEq, Repr

/-- The handler installed as `MyQuantizedLinearWeight.__torch_function__`
(swap_tensors.py lines 184-196):

    if func is torch.Tensor.module_load:
        dest, src = args[0], args[1]
        assert type(dest) == cls and type(src) == torch.Tensor
        return MyQuantizedLinearWeight(src, dest.scale)
    else:
        with torch._C.DisableTorchFunctionSubclass():
            return func(*args, **kwargs)

The `assert` is enforced here by the types of `dest` and `src`. -/
def custom_torch_function (func : TorchFunc)
    (dest : MyQuantizedLinearWeight) (src : Tensor) : TFOutcome :=
  if func = TorchFunc.moduleLoad then
    TFOutcome.constructWrapper ⟨src, dest.scale⟩
  else
    TFOutcome.delegateToFramework func dest src

/-- The two source files of the repository. -/
inductive SrcFile
  | torchExport
  | swapTensors
deriving DecidableEq, Repr

/-- Classification of a top-level script statement.  The first five kinds
are the responsibilities named by the overview section of the spec
(construct example callables and inputs, invoke the export API, print
results, catch and display expected failures) together with plain module
imports and namespace aliases; the remaining kinds are everything else
the scripts actually do. -/
inductive ActionKind
  | importStmt
  | defineCallable
  | constructExample
  | callExport
  | printResult
  | tryExpectedFailure
  | callFrameworkOther
  | setSwapFlag (enabled : Bool)
  | setLogsVerbose (verbose : Bool)
  | assignClassAttr
deriving DecidableEq, Repr

/-- A top-level statement of a script: its first line and its kind. -/
structure TopStmt where
  line : Nat
  kind : ActionKind
deriving DecidableEq, Repr

/-- Top-level statements of torch_export_tutorial.py, part 1. -/
def torchExportScriptA : List TopStmt := [
  ⟨61, .importStmt⟩,          -- imports torch
  ⟨62, .importStmt⟩,          -- from torch.export imports export
  ⟨64, .defineCallable⟩,      -- class MyModule
  ⟨72, .constructExample⟩,    -- mod = MyModule()
  ⟨73, .callExport⟩,          -- exported_mod = export(mod, ...)
  ⟨74, .printResult⟩,
  ⟨75, .printResult⟩,
  ⟨91, .printResult⟩,
  ⟨92, .printResult⟩,
  ⟨106, .printResult⟩,
  ⟨128, .defineCallable⟩,     -- class Bad1
  ⟨134, .importStmt⟩,         -- imports traceback as tb
  ⟨135, .tryExpectedFailure⟩, -- try export(Bad1()) / tb.print_exc()
  ⟨143, .defineCallable⟩,     -- class Bad2
  ⟨148, .tryExpectedFailure⟩,
  ⟨156, .defineCallable⟩,     -- class Bad3
  ⟨161, .tryExpectedFailure⟩,
  ⟨169, .defineCallable⟩,     -- class Bad4
  ⟨178, .tryExpectedFailure⟩,
  ⟨203, .defineCallable⟩,     -- class Bad2 (redefinition)
  ⟨208, .callExport⟩,         -- bad2_nonstrict = export(..., strict=False)
  ⟨209, .printResult⟩,
  ⟨217, .defineCallable⟩,     -- class Bad3 (redefinition)
  ⟨222, .callExport⟩,
  ⟨223, .printResult⟩,
  ⟨224, .printResult⟩,
  ⟨230, .defineCallable⟩,     -- class Bad4 (redefinition)
  ⟨239, .callExport⟩,
  ⟨240, .printResult⟩,
  ⟨255, .importStmt⟩,         -- from functorch... imports cond
  ⟨257, .defineCallable⟩,     -- class Bad1Fixed
  ⟨265, .callExport⟩,
  ⟨266, .printResult⟩,
  ⟨267, .printResult⟩,
  ⟨313, .defineCallable⟩,     -- class MyModule2
  ⟨321, .constructExample⟩,   -- mod2 = MyModule2()
  ⟨322, .callExport⟩,
  ⟨324, .tryExpectedFailure⟩, -- try exported_mod2.module()(...)
  ⟨352, .importStmt⟩,         -- from torch.export imports Dim
  ⟨354, .constructExample⟩,   -- inp1 = torch.randn(10, 10, 2)
  ⟨356, .defineCallable⟩,     -- class DynamicShapesExample1
  ⟨361, .constructExample⟩,   -- inp1_dim0 = Dim(...)
  ⟨362, .constructExample⟩,   -- inp1_dim1 = Dim(..., min=4, max=18)
  ⟨363, .constructExample⟩,   -- dynamic_shapes1 = ...
  ⟨367, .callExport⟩]

/-- Top-level statements of torch_export_tutorial.py, part 2. -/
def torchExportScriptB : List TopStmt := [
  ⟨369, .printResult⟩,
  ⟨371, .tryExpectedFailure⟩,
  ⟨376, .tryExpectedFailure⟩,
  ⟨381, .tryExpectedFailure⟩,
  ⟨390, .constructExample⟩,   -- inp1_dim1_bad = Dim(...)
  ⟨391, .constructExample⟩,   -- dynamic_shapes1_bad = ...
  ⟨395, .tryExpectedFailure⟩, -- try export(...) with bad constraints
  ⟨404, .constructExample⟩,   -- inp2
  ⟨405, .constructExample⟩,   -- inp3
  ⟨407, .defineCallable⟩,     -- class DynamicShapesExample2
  ⟨411, .constructExample⟩,   -- inp2_dim0
  ⟨412, .constructExample⟩,   -- inner_dim
  ⟨413, .constructExample⟩,   -- inp3_dim1
  ⟨415, .constructExample⟩,   -- dynamic_shapes2
  ⟨420, .callExport⟩,
  ⟨422, .printResult⟩,
  ⟨424, .tryExpectedFailure⟩,
  ⟨434, .defineCallable⟩,     -- class DerivedDimExample1
  ⟨438, .constructExample⟩,   -- foo = DerivedDimExample1()
  ⟨440, .constructExample⟩,   -- x, y = torch.randn(5), torch.randn(6)
  ⟨441, .constructExample⟩,   -- dimx = torch.export.Dim(...)
  ⟨442, .constructExample⟩,   -- dimy = dimx + 1
  ⟨443, .constructExample⟩,   -- derived_dynamic_shapes1
  ⟨445, .callExport⟩,
  ⟨447, .printResult⟩,
  ⟨449, .tryExpectedFailure⟩,
  ⟨455, .defineCallable⟩,     -- class DerivedDimExample2
  ⟨459, .constructExample⟩,   -- foo = DerivedDimExample2()
  ⟨461, .constructExample⟩,   -- z, y = torch.randn(4), torch.randn(10)
  ⟨462, .constructExample⟩,   -- dx
  ⟨463, .constructExample⟩,   -- dz = dx + 1
  ⟨464, .constructExample⟩,   -- dy = dx * 3 + 1
  ⟨465, .constructExample⟩,   -- derived_dynamic_shapes2
  ⟨467, .callExport⟩,
  ⟨468, .printResult⟩,
  ⟨477, .constructExample⟩,   -- inp4
  ⟨478, .constructExample⟩,   -- inp5
  ⟨480, .defineCallable⟩,     -- class DynamicShapesExample3
  ⟨486, .constructExample⟩,   -- dynamic_shapes3 = ...
  ⟨491, .tryExpectedFailure⟩, -- try export(...) to read suggested fixes
  ⟨501, .defineCallable⟩,     -- def suggested_fixes
  ⟨513, .constructExample⟩,   -- dynamic_shapes3_fixed = suggested_fixes()
  ⟨514, .callExport⟩,
  ⟨515, .printResult⟩,
  ⟨526, .importStmt⟩]         -- imports logging

/-- Top-level statements of torch_export_tutorial.py, part 3. -/
def torchExportScriptC : List TopStmt := [
  ⟨527, .setLogsVerbose true⟩,  -- torch._logging.set_logs(INFO, INFO)
  ⟨528, .callExport⟩,
  ⟨531, .setLogsVerbose false⟩, -- reset set_logs(WARNING, WARNING)
  ⟨537, .printResult⟩,          -- print range_constraints
  ⟨550, .defineCallable⟩,       -- def custom_op (decorated)
  ⟨559, .defineCallable⟩,       -- def custom_op_meta (register_fake)
  ⟨566, .defineCallable⟩,       -- class CustomOpExample
  ⟨576, .callExport⟩,
  ⟨577, .printResult⟩,          -- graph_module.print_readable()
  ⟨578, .printResult⟩,
  ⟨601, .printResult⟩,          -- print is_mutable
  ⟨602, .printResult⟩,
  ⟨628, .defineCallable⟩,       -- class M
  ⟨636, .callExport⟩,
  ⟨637, .printResult⟩,
  ⟨639, .callFrameworkOther⟩,   -- core_ir_ep = ep.run_decompositions()
  ⟨640, .printResult⟩,
  ⟨656, .defineCallable⟩,       -- class M (redefinition)
  ⟨664, .callExport⟩,
  ⟨665, .printResult⟩,
  ⟨667, .importStmt⟩,           -- from torch._decomp imports get_decompositions
  ⟨668, .callFrameworkOther⟩,   -- decomp_table = get_decompositions(...)
  ⟨669, .callFrameworkOther⟩,   -- core_ir_ep = ep.run_decompositions(...)
  ⟨670, .printResult⟩,
  ⟨694, .defineCallable⟩,       -- def cond_predicate
  ⟨725, .defineCallable⟩,       -- class M (redefinition)
  ⟨734, .constructExample⟩,     -- inp = torch.randn(2, 3, device=cuda)
  ⟨735, .constructExample⟩,     -- m = M().to(device=cuda)
  ⟨736, .callExport⟩,
  ⟨739, .callFrameworkOther⟩,   -- res = ep.module()(inp)
  ⟨740, .printResult⟩,
  ⟨743, .callFrameworkOther⟩,   -- res = torch.compile(...)(inp)
  ⟨744, .printResult⟩]

/-- Every top-level statement of
`intermediate_source/torch_export_tutorial.py`, in source order. -/
def torchExportScript : List TopStmt :=
  torchExportScriptA ++ torchExportScriptB ++ torchExportScriptC

/-- Top-level statements of recipes/swap_tensors.py, part 1. -/
def swapTensorsScriptA : List TopStmt := [
  ⟨23, .importStmt⟩,          -- imports torch
  ⟨24, .importStmt⟩,          -- imports torch.nn as nn
  ⟨25, .constructExample⟩,    -- t1 = torch.arange(2)
  ⟨26, .constructExample⟩,    -- t2 = torch.arange(3)
  ⟨27, .printResult⟩,
  ⟨28, .callFrameworkOther⟩,  -- torch.utils.swap_tensors(t1, t2)
  ⟨29, .printResult⟩,
  ⟨46, .constructExample⟩,    -- mod = torch.nn.Linear(1, 2, bias=False)
  ⟨47, .constructExample⟩,    -- optimizer = torch.optim.SGD(mod.parameters())
  ⟨48, .printResult⟩,
  ⟨49, .printResult⟩,
  ⟨50, .constructExample⟩,    -- mod.weight = torch.nn.Parameter(2 * mod.weight)
  ⟨51, .printResult⟩,
  ⟨52, .printResult⟩,
  ⟨77, .importStmt⟩,          -- aten = torch.ops.aten (namespace alias)
  ⟨79, .defineCallable⟩,      -- class MyQuantizedLinearWeight
  ⟨116, .constructExample⟩,   -- m = nn.Linear(3, 5, dtype=torch.float32)
  ⟨117, .constructExample⟩,   -- m.weight = Parameter(MyQuantizedLinearWeight(...))
  ⟨118, .printResult⟩,
  ⟨119, .callFrameworkOther⟩, -- m.bfloat16()
  ⟨120, .printResult⟩,
  ⟨121, .printResult⟩,
  ⟨122, .printResult⟩,
  ⟨123, .printResult⟩]

/-- Top-level statements of recipes/swap_tensors.py, part 2. -/
def swapTensorsScriptB : List TopStmt := [
  ⟨133, .setSwapFlag true⟩,   -- set_swap_module_params_on_conversion(True)
  ⟨134, .constructExample⟩,   -- m = nn.Linear(3, 5, dtype=torch.float32)
  ⟨135, .constructExample⟩,   -- m.weight = Parameter(MyQuantizedLinearWeight(...))
  ⟨136, .printResult⟩,
  ⟨137, .callFrameworkOther⟩, -- m.bfloat16()
  ⟨138, .printResult⟩,
  ⟨139, .printResult⟩,
  ⟨140, .printResult⟩,
  ⟨141, .printResult⟩,
  ⟨142, .setSwapFlag false⟩,  -- set_swap_module_params_on_conversion(False)
  ⟨184, .defineCallable⟩,     -- def custom_torch_function (classmethod)
  ⟨196, .assignClassAttr⟩,    -- MyQuantizedLinearWeight.__torch_function__ = ...
  ⟨203, .defineCallable⟩,     -- def fn
  ⟨210, .constructExample⟩,   -- with torch.device(meta): m = nn.Linear; m.apply(fn)
  ⟨219, .setSwapFlag true⟩,   -- set_swap_module_params_on_conversion(True)
  ⟨220, .printResult⟩,
  ⟨221, .printResult⟩,
  ⟨222, .constructExample⟩,   -- state_dict = nn.Linear(3, 5).state_dict()
  ⟨223, .printResult⟩,
  ⟨224, .callFrameworkOther⟩, -- m.load_state_dict(state_dict, assign=True)
  ⟨225, .printResult⟩,
  ⟨226, .printResult⟩]

/-- Every top-level statement of
`recipes_source/recipes/swap_tensors.py`, in source order. -/
def swapTensorsScript : List TopStmt :=
  swapTensorsScriptA ++ swapTensorsScriptB

/-- The global framework settings the scripts touch: the
`torch.__future__` swap_module_params_on_conversion flag and whether
`torch._logging` verbosity is raised above the default WARNING level. -/
structure GlobalSettings where
  swapFlag : Bool
  logsVerbose : Bool
deriving DecidableEq, Repr

/-- The framework defaults before either script runs: the swap flag is
off and logging is at the default WARNING level. -/
def initialSettings : GlobalSettings :=
  ⟨false, false⟩

/-- Effect of one top-level statement on the global settings. -/
def stepSettings (g : GlobalSettings) (s : TopStmt) : GlobalSettings :=
  match s.kind with
  | ActionKind.setSwapFlag b => { g with swapFlag := b }
  | ActionKind.setLogsVerbose b => { g with logsVerbose := b }
  | _ => g

/-- Global settings left behind by running a script from a given state. -/
def runScript (g : GlobalSettings) (stmts : List TopStmt) : GlobalSettings :=
  stmts.foldl stepSettings g

/-- The swap-flag toggles a script performs, in order, with their lines. -/
def swapFlagEvents (stmts : List TopStmt) : List (Nat × Bool) :=
  stmts.filterMap (fun s =>
    match s.kind with
    | ActionKind.setSwapFlag b => some (s.line, b)
    | _ => none)

/-- The logging toggles a script performs, in order, with their lines. -/
def logsEvents (stmts : List TopStmt) : List (Nat × Bool) :=
  stmts.filterMap (fun s =>
    match s.kind with
    | ActionKind.setLogsVerbose b => some (s.line, b)
    | _ => none)

/-- A function or method body defined in the scripts: where it is, whether
the body contains branching control flow written in this repository
(if / try / raise), and whether it contains any loop or recursion. -/
structure Component where
  file : SrcFile
  name : String
  line : Nat
  branches : Bool
  loops : Bool
deriving DecidableEq, Repr

/-- Function and method bodies of torch_export_tutorial.py, part 1. -/
def componentsA : List Component := [
  ⟨.torchExport, "MyModule.__init__", 65, false, false⟩,
  ⟨.torchExport, "MyModule.forward", 69, false, false⟩,
  ⟨.torchExport, "Bad1.forward", 129, true, false⟩,   -- if x.sum() > 0
  ⟨.torchExport, "Bad2.forward", 144, false, false⟩,
  ⟨.torchExport, "Bad3.forward", 157, false, false⟩,
  ⟨.torchExport, "Bad4.forward", 170, true, false⟩,   -- try / raise / except
  ⟨.torchExport, "Bad2.forward", 204, false, false⟩,  -- redefinition
  ⟨.torchExport, "Bad3.forward", 218, false, false⟩,  -- redefinition
  ⟨.torchExport, "Bad4.forward", 231, true, false⟩,   -- redefinition
  ⟨.torchExport, "Bad1Fixed.forward", 258, false, false⟩, -- branching via cond op
  ⟨.torchExport, "MyModule2.__init__", 314, false, false⟩,
  ⟨.torchExport, "MyModule2.forward", 318, false, false⟩,
  ⟨.torchExport, "DynamicShapesExample1.forward", 357, false, false⟩,
  ⟨.torchExport, "DynamicShapesExample2.forward", 408, false, false⟩,
  ⟨.torchExport, "DerivedDimExample1.forward", 435, false, false⟩,
  ⟨.torchExport, "DerivedDimExample2.forward", 456, false, false⟩,
  ⟨.torchExport, "DynamicShapesExample3.forward", 481, true, false⟩] -- if x.shape[0] <= 16

/-- Function and method bodies of torch_export_tutorial.py (part 2) and
swap_tensors.py. -/
def componentsB : List Component := [
  ⟨.torchExport, "suggested_fixes", 501, false, false⟩,
  ⟨.torchExport, "custom_op", 551, false, false⟩,
  ⟨.torchExport, "custom_op_meta", 560, false, false⟩,
  ⟨.torchExport, "CustomOpExample.forward", 567, false, false⟩,
  ⟨.torchExport, "M.__init__", 629, false, false⟩,
  ⟨.torchExport, "M.forward", 633, false, false⟩,
  ⟨.torchExport, "M.__init__", 657, false, false⟩,   -- redefinition
  ⟨.torchExport, "M.forward", 661, false, false⟩,    -- redefinition
  ⟨.torchExport, "cond_predicate", 694, false, false⟩, -- boolean expr + cond op
  ⟨.torchExport, "M.__init__", 726, false, false⟩,   -- redefinition
  ⟨.torchExport, "M.forward", 730, false, false⟩,    -- redefinition
  ⟨.swapTensors, "MyQuantizedLinearWeight.__new__", 80, false, false⟩,
  ⟨.swapTensors, "MyQuantizedLinearWeight.__init__", 91, false, false⟩,
  ⟨.swapTensors, "MyQuantizedLinearWeight.__repr__", 95, false, false⟩,
  ⟨.swapTensors, "MyQuantizedLinearWeight.__torch_dispatch__", 98, true, false⟩, -- if / if / raise
  ⟨.swapTensors, "custom_torch_function", 184, true, false⟩, -- if / else
  ⟨.swapTensors, "fn", 203, true, false⟩]             -- if isinstance(m, nn.Linear)

/-- Every function or method body defined in the two scripts. -/
def components : List Component :=
  componentsA ++ componentsB

/-- A raise statement written in the scripts themselves.  There are three:
`raise RuntimeError` in the two definitions of `Bad4.forward`
(torch_export_tutorial.py lines 173 and 234) and `raise
NotImplementedError` in the dispatch handler (swap_tensors.py line 108).
The `assert` in `custom_torch_function` (swap_tensors.py line 190) can
also raise, but only the explicit raise statements are tabulated. -/
structure RaiseSite where
  file : SrcFile
  line : Nat
deriving DecidableEq, Repr

/-- All raise statements appearing in the two scripts. -/
def raiseSites : List RaiseSite := [
  ⟨.torchExport, 173⟩,  -- raise RuntimeError in Bad4.forward
  ⟨.torchExport, 234⟩,  -- raise RuntimeError in Bad4.forward (redefinition)
  ⟨.swapTensors, 108⟩]  -- raise NotImplementedError in the dispatch handler

/-- A try/except block in the scripts: whether it is a top-level script
statement (as opposed to living inside a defined callable), whether the
exception it catches originates in the external framework, and whether
its handler prints the exception. -/
structure TrySite where
  file : SrcFile
  line : Nat
  topLevel : Bool
  catchesFrameworkError : Bool
  handlerPrints : Bool
deriving DecidableEq, Repr

/-- Every try/except block in the two scripts.  The twelve top-level
blocks wrap a framework call (export or running an exported module) and
print the traceback with tb.print_exc().  The two blocks inside
`Bad4.forward` catch the RuntimeError raised on the previous line by the
script itself, and their handler silently computes x = x + 2. -/
def trySites : List TrySite := [
  ⟨.torchExport, 135, true, true, true⟩,
  ⟨.torchExport, 148, true, true, true⟩,
  ⟨.torchExport, 161, true, true, true⟩,
  ⟨.torchExport, 171, false, false, false⟩, -- inside Bad4.forward
  ⟨.torchExport, 178, true, true, true⟩,
  ⟨.torchExport, 232, false, false, false⟩, -- inside Bad4.forward (redefinition)
  ⟨.torchExport, 324, true, true, true⟩,
  ⟨.torchExport, 371, true, true, true⟩,
  ⟨.torchExport, 376, true, true, true⟩,
  ⟨.torchExport, 381, true, true, true⟩,
  ⟨.torchExport, 395, true, true, true⟩,
  ⟨.torchExport, 424, true, true, true⟩,
  ⟨.torchExport, 449, true, true, true⟩,
  ⟨.torchExport, 491, true, true, true⟩]

/-- An entity kind the scripts reference, and whether its internal
structure is defined by code in this repository. -/
structure EntityRow where
  name : String
  structureDefinedInRepo : Bool
deriving DecidableEq, Repr

/-- The entity kinds the claim about the data model enumerates.  The
first three are opaque values produced and consumed through framework
calls only; the quantized wrapper type is defined in swap_tensors.py
lines 79-96, where its payload field elem and its scale field are stored
by the script itself. -/
def referencedEntities : List EntityRow := [
  ⟨"ExportedProgram", false⟩,
  ⟨"torch.export.Dim", false⟩,
  ⟨"decomposition table", false⟩,
  ⟨"MyQuantizedLinearWeight", true⟩]

/-- The four statement responsibilities named by the claim about the
system overview (construct example callables, invoke the export API,
print results, catch expected failures), read generously to include
module imports and construction of example inputs. -/
def claimedKind (k : ActionKind) : Bool :=
  match k with
  | ActionKind.importStmt => true
  | ActionKind.defineCallable => true
  | ActionKind.constructExample => true
  | ActionKind.callExport => true
  | ActionKind.printResult => true
  | ActionKind.tryExpectedFailure => true
  | _ => false

/-- C1, counterexample: the claim that no function or class defined in the
scripts exhibits control flow originating in this repository is false: the
body of MyQuantizedLinearWeight.__torch_dispatch__ (swap_tensors.py line
98) branches on the dispatched operator and raises on the unsupported
case. -/
theorem c1_claim_false :
    (⟨SrcFile.swapTensors, "MyQuantizedLinearWeight.__torch_dispatch__",
        98, true, false⟩ : Component) ∈ components ∧
    ¬ (components.all (fun c => !c.branches && !c.loops) = true) := by
  decide

/-- C1, amended: the only function or method bodies with control flow
written in this repository are the pedagogical branch examples
Bad1.forward, the two Bad4.forward definitions and
DynamicShapesExample3.forward, the two extension point handlers, and the
weight converting helper fn; no body contains a loop or recursion. -/
theorem c1_amended_control_flow :
    (components.filter (fun c => c.branches)).map (fun c => c.name) =
      ["Bad1.forward", "Bad4.forward", "Bad4.forward",
       "DynamicShapesExample3.forward",
       "MyQuantizedLinearWeight.__torch_dispatch__",
       "custom_torch_function", "fn"] ∧
    components.all (fun c => !c.loops) = true := by
  decide

/-- C2, counterexample: the claim that every caught exception comes from
the framework and every handler prints it, and that no repository code
raises, is false: the try block inside Bad4.forward
(torch_export_tutorial.py line 171) catches the RuntimeError raised by
the script itself at line 173, and its handler does not print. -/
theorem c2_claim_false :
    (⟨SrcFile.torchExport, 171, false, false, false⟩ : TrySite) ∈ trySites ∧
    (⟨SrcFile.torchExport, 173⟩ : RaiseSite) ∈ raiseSites ∧
    ¬ ((trySites.all (fun t => t.catchesFrameworkError && t.handlerPrints)
          = true) ∧ raiseSites = []) := by
  decide

/-- C2, amended: every top-level try/except block catches a framework
raised exception and prints it; the only other try/except blocks are the
two inside Bad4.forward, which catch the RuntimeError the script itself
raises and do not print; the scripts contain exactly three raise
statements of their own. -/
theorem c2_amended_error_handling :
    trySites.all (fun t =>
      !t.topLevel || (t.catchesFrameworkError && t.handlerPrints)) = true ∧
    (trySites.filter (fun t => !t.topLevel)).map (fun t => t.line) =
      [171, 232] ∧
    raiseSites = [⟨SrcFile.torchExport, 173⟩, ⟨SrcFile.torchExport, 234⟩,
      ⟨SrcFile.swapTensors, 108⟩] := by
  decide

/-- C3, counterexample: the claim that every referenced entity is consumed
as an opaque framework value is false: the quantized wrapper type
MyQuantizedLinearWeight is defined by this repository, with its internal
fields elem and scale stored by the script (swap_tensors.py lines
91-93). -/
theorem c3_claim_false :
    (⟨"MyQuantizedLinearWeight", true⟩ : EntityRow) ∈ referencedEntities ∧
    ¬ (referencedEntities.all (fun e => !e.structureDefinedInRepo)
        = true) := by
  decide

/-- C3, amended: of the referenced entity kinds, only the quantized
wrapper type has internal structure defined in this repository; its
constructor stores exactly the given payload and scale. -/
theorem c3_amended_entities :
    (referencedEntities.filter (fun e => e.structureDefinedInRepo)).map
        (fun e => e.name) = ["MyQuantizedLinearWeight"] ∧
    ∀ (e : Tensor) (s : Scale),
      (MyQuantizedLinearWeight.mk e s).elem = e ∧
      (MyQuantizedLinearWeight.mk e s).scale = s :=
  ⟨by decide, fun e s => ⟨rfl, rfl⟩⟩

/-- C4: the eager implementation custom_op returns relu of the module
level global and is independent of its tensor parameter, while the
registered fake implementation custom_op_meta returns a tensor shaped
like its own argument; at a concrete input the eager result differs from
relu of the parameter. -/
theorem c4_custom_op_ignores_input :
    (∀ g a b : Tensor, custom_op g a = custom_op g b) ∧
    (∀ g a : Tensor, custom_op g a = relu g) ∧
    (∀ a : Tensor, (custom_op_meta a).shape = a.shape) ∧
    custom_op ⟨[1], [-1]⟩ ⟨[1], [5]⟩ ≠ relu ⟨[1], [5]⟩ :=
  ⟨fun _ _ _ => rfl, fun _ _ => rfl, fun _ => rfl, by decide⟩

/-- C5, counterexample: the claim that every global framework setting a
script changes is restored before the script ends is false: running
swap_tensors.py from the default settings does not end in the default
settings (the swap flag ends up enabled). -/
theorem c5_claim_false :
    ¬ (runScript initialSettings torchExportScript = initialSettings ∧
       runScript initialSettings swapTensorsScript = initialSettings) := by
  decide

/-- C5, amended: torch_export_tutorial.py restores every global setting it
changes (the logging verbosity is raised and then reset), and
swap_tensors.py leaves the logging setting untouched but ends with the
swap_module_params_on_conversion flag still enabled. -/
theorem c5_amended_global_settings :
    runScript initialSettings torchExportScript = initialSettings ∧
    (runScript initialSettings swapTensorsScript).logsVerbose =
      initialSettings.logsVerbose ∧
    (runScript initialSettings swapTensorsScript).swapFlag = true := by
  decide

/-- C6, counterexample: the claim that every top-level action is one of
the four documented kinds is false: the statement at swap_tensors.py line
133 enables the global swap_module_params_on_conversion flag, which is
none of constructing a callable, invoking export, printing, or catching a
failure. -/
theorem c6_claim_false :
    (⟨133, ActionKind.setSwapFlag true⟩ : TopStmt) ∈ swapTensorsScript ∧
    claimedKind (ActionKind.setSwapFlag true) = false ∧
    ¬ ((torchExportScript ++ swapTensorsScript).all
        (fun s => claimedKind s.kind) = true) := by
  decide

/-- C6, amended: beyond the four documented responsibilities (plus
imports and example-input construction), the scripts perform exactly
fifteen further top-level actions: two logging toggles, three swap flag
toggles, one handler attribute installation, and nine non-export
framework invocations on example objects. -/
theorem c6_amended_action_kinds :
    ((torchExportScript ++ swapTensorsScript).filter
        (fun s => !(claimedKind s.kind))).map (fun s => (s.line, s.kind)) =
      [(527, ActionKind.setLogsVerbose true),
       (531, ActionKind.setLogsVerbose false),
       (639, ActionKind.callFrameworkOther),
       (668, ActionKind.callFrameworkOther),
       (669, ActionKind.callFrameworkOther),
       (739, ActionKind.callFrameworkOther),
       (743, ActionKind.callFrameworkOther),
       (28, ActionKind.callFrameworkOther),
       (119, ActionKind.callFrameworkOther),
       (133, ActionKind.setSwapFlag true),
       (137, ActionKind.callFrameworkOther),
       (142, ActionKind.setSwapFlag false),
       (196, ActionKind.assignClassAttr),
       (219, ActionKind.setSwapFlag true),
       (224, ActionKind.callFrameworkOther)] := by
  decide

/-- C7, counterexample: the claim that every call routed through the
handlers is delegated to the framework with no repository defined
transformation is false: on torch.Tensor.module_load the handler
custom_torch_function constructs a wrapper itself instead of
delegating. -/
theorem c7_claim_false :
    ¬ (∀ (func : TorchFunc) (dest : MyQuantizedLinearWeight) (src : Tensor),
        ∃ f d s, custom_torch_function func dest src =
          TFOutcome.delegateToFramework f d s) := by
  intro h
  obtain ⟨f, d, s, hfds⟩ :=
    h TorchFunc.moduleLoad ⟨⟨[3, 5], [1]⟩, 1/2⟩ ⟨[3, 5], [2]⟩
  simp [custom_torch_function] at hfds

/-- C7, amended: the torch_function handler delegates every call except
torch.Tensor.module_load to the framework with the subclass handler
disabled, but on module_load it applies the repository defined
transformation (wrap the state_dict tensor with the destination scale);
likewise the dispatch handler lets the framework kernel produce the new
payload but itself rewraps it, preserving the scale. -/
theorem c7_amended_handlers :
    (∀ (func : TorchFunc) (dest : MyQuantizedLinearWeight) (src : Tensor),
      func ≠ TorchFunc.moduleLoad →
        custom_torch_function func dest src =
          TFOutcome.delegateToFramework func dest src) ∧
    (∀ (dest : MyQuantizedLinearWeight) (src : Tensor),
      custom_torch_function TorchFunc.moduleLoad dest src =
        TFOutcome.constructWrapper ⟨src, dest.scale⟩) ∧
    (∀ (applyAten : AtenOp → Tensor → Tensor) (func : AtenOp)
        (w : MyQuantizedLinearWeight),
      (func = AtenOp.detach ∨ func = AtenOp.toCopy) →
        torch_dispatch applyAten func w =
          Except.ok ⟨applyAten func w.elem, w.scale⟩) := by
  refine ⟨fun func dest src h => ?_, fun dest src => rfl,
    fun applyAten func w h => ?_⟩
  · unfold custom_torch_function
    rw [if_neg h]
  · unfold torch_dispatch
    rw [if_pos h]

/-- C7, witness for the amended theorem: the handler delegates a
non-module_load call and the dispatch handler rewraps a detach with the
scale preserved, at concrete inputs. -/
theorem c7_amended_handlers_witness :
    custom_torch_function (TorchFunc.other "add") ⟨⟨[2], [1]⟩, 1/2⟩ ⟨[2], [4]⟩ =
      TFOutcome.delegateToFramework (TorchFunc.other "add")
        ⟨⟨[2], [1]⟩, 1/2⟩ ⟨[2], [4]⟩ ∧
    torch_dispatch (fun _ t => t) AtenOp.detach ⟨⟨[2], [1]⟩, 1/2⟩ =
      Except.ok ⟨⟨[2], [1]⟩, 1/2⟩ :=
  ⟨c7_amended_handlers.1 (TorchFunc.other "add") ⟨⟨[2], [1]⟩, 1/2⟩
      ⟨[2], [4]⟩ (by decide),
   c7_amended_handlers.2.2 (fun _ t => t) AtenOp.detach
      ⟨⟨[2], [1]⟩, 1/2⟩ (Or.inl rfl)⟩

/-- C8: the dispatch handler raises NotImplementedError exactly when the
operator is neither aten.detach.default nor aten._to_copy.default (its
OP_TABLE being the empty dict), and on the two supported operators it
returns a wrapper whose scale equals the scale of the input wrapper. -/
theorem c8_torch_dispatch_spec
    (applyAten : AtenOp → Tensor → Tensor) (func : AtenOp)
    (w : MyQuantizedLinearWeight) :
    OP_TABLE = [] ∧
    (torch_dispatch applyAten func w =
        Except.error (DispatchError.notImplemented func) ↔
      (func ≠ AtenOp.detach ∧ func ≠ AtenOp.toCopy)) ∧
    ((func = AtenOp.detach ∨ func = AtenOp.toCopy) →
      torch_dispatch applyAten func w =
        Except.ok ⟨applyAten func w.elem, w.scale⟩) := by
  refine ⟨rfl, ?_, fun h => by unfold torch_dispatch; rw [if_pos h]⟩
  by_cases h : func = AtenOp.detach ∨ func = AtenOp.toCopy
  · have hd : torch_dispatch applyAten func w =
        Except.ok ⟨applyAten func w.elem, w.scale⟩ := by
      unfold torch_dispatch; rw [if_pos h]
    rw [hd]
    constructor
    · intro he
      exact absurd he (by simp)
    · intro hne
      rcases h with h | h
      · exact absurd h hne.1
      · exact absurd h hne.2
  · have hd : torch_dispatch applyAten func w =
        Except.error (DispatchError.notImplemented func) := by
      unfold torch_dispatch; rw [if_neg h]; rfl
    rw [hd]
    rw [not_or] at h
    exact ⟨fun _ => h, fun _ => rfl⟩

/-- C8, witness: at the concrete supported operator toCopy the handler
returns the framework converted payload rewrapped with the original
scale. -/
theorem c8_torch_dispatch_spec_witness :
    torch_dispatch (fun _ t => relu t) AtenOp.toCopy ⟨⟨[1], [-2]⟩, 1/2⟩ =
      Except.ok ⟨relu ⟨[1], [-2]⟩, 1/2⟩ :=
  (c8_torch_dispatch_spec (fun _ t => relu t) AtenOp.toCopy
    ⟨⟨[1], [-2]⟩, 1/2⟩).2.2 (Or.inr rfl)

/-- C9: swap_tensors.py toggles the swap_module_params_on_conversion flag
exactly three times (enabled at line 133, disabled at line 142, enabled
again at line 219 with no later disable), the other script never touches
it, and running swap_tensors.py to completion leaves the flag enabled. -/
theorem c9_swap_flag_left_true :
    swapFlagEvents swapTensorsScript = [(133, true), (142, false), (219, true)] ∧
    swapFlagEvents torchExportScript = [] ∧
    (runScript initialSettings swapTensorsScript).swapFlag = true := by
  decide
